import Mathlib

/-!
Verification development for the `passman` password-manager repository
(`src/passman/{config.py, db.py, security.py, cli.py}`).

The SQLite-backed store is embedded as a list of rows; each db-module
function from `db.py` becomes a Lean function threading that list.  Python
runtime values that can reach the store (str, bytes, int) are embedded as
`PyVal`, so that Python's cross-type equality (`bytes == str` is `False`)
and the literal `1` passed as `iv` can be expressed faithfully.  Python
exceptions and `sys.exit` are embedded as an explicit error type.
-/

/-- Embedding of the Python runtime values that appear in the program:
`str`, `bytes` (a list of byte values) and `int`. -/
inductive PyVal where
  | pyStr (s : String)
  | pyBytes (b : List Nat)
  | pyInt (n : Int)
  deriving DecidableEq, Repr

/-- Python's `==` between the embedded values: values of different runtime
types (for example `bytes` and `str`) compare unequal, exactly as in
Python 3. -/
def pyEq : PyVal → PyVal → Bool
  | .pyStr a, .pyStr b => a == b
  | .pyBytes a, .pyBytes b => a == b
  | .pyInt a, .pyInt b => a == b
  | _, _ => false

/-- Embedding of the ways a `passman` operation can fail.

The constructors `exception`, `sysExit`, `nameError` and `invalidToken`
model what the Python code actually raises (`raise Exception(msg)` in
`db.py`, `sys.exit(0)`, an unbound name, and `cryptography`'s
`InvalidToken`).  The constructors `duplicateEntryError` and
`notFoundError` are the typed error kinds named by the specification;
no function of the embedded code ever produces them, and they exist so
that the spec's claims about them can be stated and compared against
what the code does produce. -/
inductive PyError where
  | exception (msg : String)
  | sysExit (code : Nat)
  | nameError (missing : String)
  | invalidToken
  | duplicateEntryError
  | notFoundError
  deriving DecidableEq, Repr

/-- Decidable equality of `Except` results, so that concrete outcomes can
be checked by evaluation. -/
instance exceptDecEq {α β : Type} [DecidableEq α] [DecidableEq β] :
    DecidableEq (Except α β) := fun x y =>
  match x, y with
  | .ok a, .ok b =>
      if h : a = b then isTrue (by rw [h])
      else isFalse (by intro hh; cases hh; exact h rfl)
  | .error a, .error b =>
      if h : a = b then isTrue (by rw [h])
      else isFalse (by intro hh; cases hh; exact h rfl)
  | .ok _, .error _ => isFalse (by intro hh; cases hh)
  | .error _, .ok _ => isFalse (by intro hh; cases hh)

/-- One row of the `entries` table of `config.py`'s `SQL_CREATE_TABLE`:
`id INTEGER PRIMARY KEY, service_name TEXT NOT NULL UNIQUE,
username BLOB NOT NULL, password BLOB NOT NULL, url TEXT NULL,
note TEXT NULL, created_at DATETIME DEFAULT CURRENT_TIMESTAMP,
updated_at DATETIME DEFAULT CURRENT_TIMESTAMP, iv BLOB NOT NULL`.
SQLite column affinity is dynamic, so the `username`, `password` and `iv`
columns hold whatever `PyVal` was bound to the insert parameters;
timestamps are abstracted as naturals supplied by the caller. -/
structure Row where
  id : Nat
  service_name : String
  username : PyVal
  password : PyVal
  url : Option String
  note : Option String
  created_at : Nat
  updated_at : Nat
  iv : PyVal
  deriving DecidableEq, Repr

/-- The five-column projection produced by `SQL_SEARCH`
(`SELECT service_name, url, note, created_at, updated_at`): the
non-sensitive columns, with `username` and `password` absent. -/
structure SummaryRow where
  service_name : String
  url : Option String
  note : Option String
  created_at : Nat
  updated_at : Nat
  deriving DecidableEq, Repr

/-- The seven-column projection produced by `SQL_VIEW_ENTRY`
(`SELECT service_name, username, password, url, note, created_at,
updated_at`). -/
structure EntryView where
  service_name : String
  username : PyVal
  password : PyVal
  url : Option String
  note : Option String
  created_at : Nat
  updated_at : Nat
  deriving DecidableEq, Repr

/-- Projection of a full row to its `SQL_SEARCH` columns. -/
def summaryOf (r : Row) : SummaryRow :=
  ⟨r.service_name, r.url, r.note, r.created_at, r.updated_at⟩

/-- Projection of a full row to its `SQL_VIEW_ENTRY` columns. -/
def viewOf (r : Row) : EntryView :=
  ⟨r.service_name, r.username, r.password, r.url, r.note, r.created_at, r.updated_at⟩

/-- The rowid SQLite assigns to a fresh insert into `entries`
(`id INTEGER PRIMARY KEY` is a rowid alias): one more than the largest
rowid in the table. -/
def freshId (st : List Row) : Nat :=
  (st.map (fun r => r.id)).foldr Nat.max 0 + 1

/-- Modelled from the spec: `db.validate_service_name` is called by
`cli.py` (in `add`, `update` and `delete`) but is defined nowhere in
`src/db.py`.  Per the spec's uniqueness invariant ("`service_name`
uniquely identifies at most one live Entry") and the CLI's use of the
result ("An entry for '<service_name>' already exists"), it reports
whether an entry with the given service name is already stored. -/
def validate_service_name (st : List Row) (service_name : String) : Bool :=
  st.any (fun r => r.service_name == service_name)

/-- Embedding of `db.add_entry`: executes `SQL_INSERT_ENTRY` inside a
connection context.  A `service_name` already present violates the
`UNIQUE` constraint, SQLite raises `sqlite3.IntegrityError`, the
`except sqlite3.Error` handler re-raises a plain `Exception` carrying the
formatted message, and the transaction context rolls the insert back, so
the store is unchanged.  Otherwise the row is appended with both
timestamp columns set to the current time. -/
def add_entry (st : List Row) (service_name : String) (username password : PyVal)
    (url note : Option String) (iv : PyVal) (now : Nat) : Except PyError (List Row) :=
  if st.any (fun r => r.service_name == service_name) then
    .error (.exception ("Could not insert entry for " ++ service_name ++
      ". Details: UNIQUE constraint failed: entries.service_name"))
  else
    .ok (st ++ [⟨freshId st, service_name, username, password, url, note, now, now, iv⟩])

/-- Embedding of `db.view_entry`: executes `SQL_VIEW_ENTRY`
(`WHERE service_name = ?`, SQLite's case-sensitive TEXT equality) and
`fetchmany(1)`, i.e. at most the first matching row in table order.
When no row matches, the function prints a message and calls
`sys.exit(0)`; otherwise it returns the one-element list of
seven-column tuples. -/
def view_entry (st : List Row) (service_name : String) : Except PyError (List EntryView) :=
  match (st.filter (fun r => r.service_name == service_name)).head? with
  | none => .error (.sysExit 0)
  | some r => .ok [viewOf r]

/-- Embedding of `db.update_entry`: executes `SQL_UPDATE_ENTRY`
(`UPDATE entries SET password = ?, updated_at = datetime() WHERE
service_name = ?`): every row whose `service_name` matches gets the new
password and a fresh `updated_at`; every other column and every other
row is left untouched.  A `service_name` matching no row updates
nothing and raises nothing. -/
def update_entry (st : List Row) (service_name : String) (password : PyVal)
    (now : Nat) : List Row :=
  st.map (fun r =>
    if r.service_name == service_name then
      { r with password := password, updated_at := now }
    else r)

/-- Embedding of `db.delete_entry`: executes `SQL_DELETE_ENTRY`
(`DELETE FROM entries WHERE service_name = ?`), removing every matching
row; a `service_name` matching no row deletes nothing and raises
nothing. -/
def delete_entry (st : List Row) (service_name : String) : List Row :=
  st.filter (fun r => r.service_name != service_name)

/-- Embedding of `db.list`: the function body executes
`cur.execute(SQL_LIST)`, but the name `SQL_LIST` is defined neither in
`config.py` (whose star-import supplies the other six SQL constants) nor
anywhere else in the repository, so evaluating it raises `NameError`
before any query runs — `NameError` is not an `sqlite3.Error`, so the
handler does not catch it.  The call therefore fails identically on
every store. -/
def db_list (st : List Row) : Except PyError (List SummaryRow) :=
  .error (.nameError "SQL_LIST")

/-- ASCII case folding as performed by SQLite's default `LIKE`: the
upper-case letters `A`-`Z` fold to lower case, every other character is
left alone. -/
def lowerAscii (c : Char) : Char :=
  if 'A' ≤ c ∧ c ≤ 'Z' then Char.ofNat (c.toNat + 32) else c

/-- SQLite's default `LIKE` operator on the embedded characters:
`%` in the pattern matches any (possibly empty) sequence, `_` matches
exactly one character, and any other pattern character matches a text
character equal to it up to ASCII case folding. -/
def likeMatch : List Char → List Char → Bool
  | [], s => s.isEmpty
  | p :: ps, s =>
    if p = '%' then
      match s with
      | [] => likeMatch ps []
      | _ :: s2 => likeMatch ps s || likeMatch (p :: ps) s2
    else
      match s with
      | [] => false
      | c :: s2 =>
        if p = '_' then likeMatch ps s2
        else lowerAscii p == lowerAscii c && likeMatch ps s2
termination_by p s => (p.length, s.length)

/-- Embedding of `db.search`: builds the pattern
`search_pattern = "%" + search_term + "%"` and executes `SQL_SEARCH`
(`WHERE service_name LIKE ?`), projecting the matches to the
non-sensitive columns.  When no row matches, the function prints a
message and calls `sys.exit(0)`; otherwise it returns the matching
rows in table order. -/
def db_search (st : List Row) (search_term : String) : Except PyError (List SummaryRow) :=
  let search_pattern := "%" ++ search_term ++ "%"
  let rows := (st.filter (fun r => likeMatch search_pattern.data r.service_name.data)).map summaryOf
  if rows.isEmpty then .error (.sysExit 0) else .ok rows

/-- The observable outcome of one run of the CLI `add` command. -/
inductive CliOutcome where
  | saved
  | cancelled
  | duplicateExit
  | dbError (e : PyError)
  deriving DecidableEq, Repr

/-- Embedding of `cli.add`: aborts via `sys.exit(0)` when
`validate_service_name` reports the name as taken; otherwise takes the
prompted username and password strings (or the hard-coded generated
password when `-g` is given), the prompted url and note, and — when the
user confirms — calls `db.add_entry(service_name, username, password,
url, note, 1)`.  The username and password strings are passed through
unchanged and the `iv` argument is the integer literal `1`; nothing in
the flow invokes any encryption.  On a db error the message is printed
and the store is left as it was (`click.Abort()` is constructed but not
raised). -/
def cli_add (st : List Row) (service_name username entered_password url note : String)
    (generate confirm : Bool) (now : Nat) : List Row × CliOutcome :=
  if validate_service_name st service_name then
    (st, .duplicateExit)
  else
    let password := if generate then "generatedTestPassword123" else entered_password
    if confirm then
      match add_entry st service_name (.pyStr username) (.pyStr password)
          (some url) (some note) (.pyInt 1) now with
      | .ok st2 => (st2, .saved)
      | .error e => (st, .dbError e)
    else (st, .cancelled)

/-- The claim's own matching relation, written from the spec's words:
`t` occurs in `s` as a contiguous substring (exact characters, no case
folding, no wildcards). -/
def startsWithChars : List Char → List Char → Bool
  | [], _ => true
  | _ :: _, [] => false
  | a :: t, b :: s => a == b && startsWithChars t s

/-- `containsSub t s` holds when `t` is a contiguous substring of `s`. -/
def containsSub (t : List Char) : List Char → Bool
  | [] => startsWithChars t []
  | c :: s => startsWithChars t (c :: s) || containsSub t s

/-- A search term with no `LIKE` metacharacters: it contains neither
`%` nor `_`. -/
def noWildcard (t : List Char) : Bool :=
  t.all (fun c => !(c == '%') && !(c == '_'))

/-!
Embedding of `security.py`.  `derive_key` configures the `cryptography`
library's `PBKDF2HMAC` with `algorithm=SHA256`, `length=32` and
`iterations=1_200_000` and base64-url-encodes the derived bytes; the
primitives (SHA-256 per FIPS 180-4, HMAC per RFC 2104, PBKDF2 per
RFC 2898, base64url per RFC 4648) are implemented below over byte lists
so the composition is concrete and executable.
-/

/-- Truncation to a 32-bit word. -/
def w32 (x : Nat) : Nat := x % 4294967296

/-- Rotation of a 32-bit word to the right by `n` positions. -/
def rotr (n x : Nat) : Nat := w32 ((x >>> n) ||| (x <<< (32 - n)))

/-- The sixty-four SHA-256 round constants of FIPS 180-4 (the fractional
parts of the cube roots of the first sixty-four primes), written in
decimal. -/
def sha256K : List Nat :=
  [1116352408, 1899447441, 3049323471, 3921009573, 961987163,
   1508970993, 2453635748, 2870763221, 3624381080, 310598401,
   607225278, 1426881987, 1925078388, 2162078206, 2614888103,
   3248222580, 3835390401, 4022224774, 264347078, 604807628,
   770255983, 1249150122, 1555081692, 1996064986, 2554220882,
   2821834349, 2952996808, 3210313671, 3336571891, 3584528711,
   113926993, 338241895, 666307205, 773529912, 1294757372,
   1396182291, 1695183700, 1986661051, 2177026350, 2456956037,
   2730485921, 2820302411, 3259730800, 3345764771, 3516065817,
   3600352804, 4094571909, 275423344, 430227734, 506948616,
   659060556, 883997877, 958139571, 1322822218, 1537002063,
   1747873779, 1955562222, 2024104815, 2227730452, 2361852424,
   2428436474, 2756734187, 3204031479, 3329325298]

/-- The eight working variables of the SHA-256 compression function. -/
structure Sha256State where
  a : Nat
  b : Nat
  c : Nat
  d : Nat
  e : Nat
  f : Nat
  g : Nat
  h : Nat
  deriving DecidableEq, Repr

/-- The initial SHA-256 hash value of FIPS 180-4, in decimal. -/
def sha256Init : Sha256State :=
  ⟨1779033703, 3144134277, 1013904242, 2773480762,
   1359893119, 2600822924, 528734635, 1541459225⟩

/-- Big-endian 4-byte serialisation of a 32-bit word. -/
def wordBE (x : Nat) : List Nat :=
  [x / 16777216 % 256, x / 65536 % 256, x / 256 % 256, x % 256]

/-- Big-endian 8-byte serialisation of a 64-bit length. -/
def lenBE64 (x : Nat) : List Nat :=
  [x / 2 ^ 56 % 256, x / 2 ^ 48 % 256, x / 2 ^ 40 % 256, x / 2 ^ 32 % 256,
   x / 2 ^ 24 % 256, x / 2 ^ 16 % 256, x / 2 ^ 8 % 256, x % 256]

/-- SHA-256 padding: a `0x80` byte, zeros to 56 mod 64, then the message
bit length as a big-endian 64-bit integer. -/
def sha256Pad (msg : List Nat) : List Nat :=
  msg ++ [128] ++ List.replicate ((119 - msg.length % 64) % 64) 0 ++ lenBE64 (msg.length * 8)

/-- Split a byte list into 64-byte blocks. -/
def toBlocks (l : List Nat) : List (List Nat) :=
  if l = [] then [] else l.take 64 :: toBlocks (l.drop 64)
termination_by l.length
decreasing_by
  simp only [List.length_drop]
  have : 0 < l.length := List.length_pos.mpr (by assumption)
  omega

/-- Big-endian 32-bit words from a byte list. -/
def bytesToWords : List Nat → List Nat
  | b0 :: b1 :: b2 :: b3 :: rest =>
      (b0 * 16777216 + b1 * 65536 + b2 * 256 + b3) :: bytesToWords rest
  | _ => []

/-- One step of the SHA-256 message-schedule extension. -/
def scheduleStep (ws : List Nat) : List Nat :=
  let i := ws.length
  let s0 := fun x => rotr 7 x ^^^ rotr 18 x ^^^ (x >>> 3)
  let s1 := fun x => rotr 17 x ^^^ rotr 19 x ^^^ (x >>> 10)
  ws ++ [w32 (ws.getD (i - 16) 0 + s0 (ws.getD (i - 15) 0) +
              ws.getD (i - 7) 0 + s1 (ws.getD (i - 2) 0))]

/-- The 64-word SHA-256 message schedule of one block. -/
def schedule (block : List Nat) : List Nat :=
  (List.range 48).foldl (fun ws _ => scheduleStep ws) (bytesToWords block)

/-- One SHA-256 compression round. -/
def compressRound (st : Sha256State) (kw : Nat × Nat) : Sha256State :=
  let S1 := rotr 6 st.e ^^^ rotr 11 st.e ^^^ rotr 25 st.e
  let ch := (st.e &&& st.f) ^^^ ((st.e ^^^ 4294967295) &&& st.g)
  let temp1 := w32 (st.h + S1 + ch + kw.1 + kw.2)
  let S0 := rotr 2 st.a ^^^ rotr 13 st.a ^^^ rotr 22 st.a
  let maj := (st.a &&& st.b) ^^^ (st.a &&& st.c) ^^^ (st.b &&& st.c)
  let temp2 := w32 (S0 + maj)
  ⟨w32 (temp1 + temp2), st.a, st.b, st.c, w32 (st.d + temp1), st.e, st.f, st.g⟩

/-- SHA-256 compression of one 64-byte block into the running state. -/
def compressBlock (st0 : Sha256State) (block : List Nat) : Sha256State :=
  let st := (sha256K.zip (schedule block)).foldl compressRound st0
  ⟨w32 (st0.a + st.a), w32 (st0.b + st.b), w32 (st0.c + st.c), w32 (st0.d + st.d),
   w32 (st0.e + st.e), w32 (st0.f + st.f), w32 (st0.g + st.g), w32 (st0.h + st.h)⟩

/-- Big-endian serialisation of the final SHA-256 state. -/
def sha256Digest (st : Sha256State) : List Nat :=
  wordBE st.a ++ wordBE st.b ++ wordBE st.c ++ wordBE st.d ++
  wordBE st.e ++ wordBE st.f ++ wordBE st.g ++ wordBE st.h

/-- SHA-256 of a byte list. -/
def sha256 (msg : List Nat) : List Nat :=
  sha256Digest ((toBlocks (sha256Pad msg)).foldl compressBlock sha256Init)

/-- HMAC-SHA256 (RFC 2104): the key is hashed when longer than the
64-byte block, zero-padded to the block size, and combined with the
inner and outer pads. -/
def hmacSha256 (key msg : List Nat) : List Nat :=
  let k0 := if 64 < key.length then sha256 key else key
  let k := k0 ++ List.replicate (64 - k0.length) 0
  sha256 ((k.map (fun b => b ^^^ 92)) ++ sha256 ((k.map (fun b => b ^^^ 54)) ++ msg))

/-- Byte-wise exclusive or. -/
def xorBytes (a b : List Nat) : List Nat :=
  List.zipWith (fun x y => x ^^^ y) a b

/-- The iterated-HMAC accumulation inside one PBKDF2 block: folds the
remaining `U_2 … U_c` values into the running exclusive-or. -/
def pbkdf2Loop (password u acc : List Nat) : Nat → List Nat
  | 0 => acc
  | n + 1 =>
      let u2 := hmacSha256 password u
      pbkdf2Loop password u2 (xorBytes acc u2) n

/-- The `i`-th PBKDF2 output block `T_i = U_1 xor … xor U_c` with
`U_1 = PRF(password, salt ‖ INT_32_BE(i))`. -/
def pbkdf2Block (password salt : List Nat) (c i : Nat) : List Nat :=
  let u1 := hmacSha256 password (salt ++ [i / 16777216 % 256, i / 65536 % 256, i / 256 % 256, i % 256])
  pbkdf2Loop password u1 u1 (c - 1)

/-- PBKDF2-HMAC-SHA256 (RFC 2898): concatenated output blocks truncated
to the requested key length. -/
def pbkdf2HmacSha256 (password salt : List Nat) (c dkLen : Nat) : List Nat :=
  (((List.range ((dkLen + 31) / 32)).map (fun j => pbkdf2Block password salt c (j + 1))).flatten).take dkLen

/-- The base64url alphabet of RFC 4648 as byte values. -/
def b64Alphabet : List Nat :=
  "ABCDEFGHIJKLMNOPQRSTUVWXYZabcdefghijklmnopqrstuvwxyz0123456789-_".data.map Char.toNat

/-- The base64url character encoding a 6-bit group. -/
def b64Char (n : Nat) : Nat := b64Alphabet.getD n 0

/-- `base64.urlsafe_b64encode` over byte lists, `=`-padded (byte 61). -/
def urlsafeB64encode : List Nat → List Nat
  | a :: b :: c :: rest =>
      b64Char (a / 4) :: b64Char (a % 4 * 16 + b / 16) ::
      b64Char (b % 16 * 4 + c / 64) :: b64Char (c % 64) :: urlsafeB64encode rest
  | [a, b] => [b64Char (a / 4), b64Char (a % 4 * 16 + b / 16), b64Char (b % 16 * 4), 61]
  | [a] => [b64Char (a / 4), b64Char (a % 4 * 16), 61, 61]
  | [] => []

/-- The UTF-8 bytes of a Python string (`password.encode("utf-8")`). -/
def utf8Bytes (s : String) : List Nat :=
  s.toUTF8.toList.map (fun b => b.toNat)

/-- The iteration count `derive_key` passes to `PBKDF2HMAC`
(`iterations=1_200_000`). -/
def kdf_iterations : Nat := 1200000

/-- The output length in bytes `derive_key` passes to `PBKDF2HMAC`
(`length=32`, i.e. a 256-bit key). -/
def kdf_length : Nat := 32

/-- Embedding of `security.derive_key(salt, password)`: UTF-8-encodes the
password, derives `kdf_length` bytes with PBKDF2-HMAC-SHA256 over the
salt with `kdf_iterations` iterations, and returns the
`base64.urlsafe_b64encode` of the derived bytes (the Fernet key
format). -/
def derive_key (salt : List Nat) (password : String) : List Nat :=
  urlsafeB64encode (pbkdf2HmacSha256 (utf8Bytes password) salt kdf_iterations kdf_length)

/-- Model of the external `cryptography.fernet.Fernet` authenticated
encryption, by its documented contract: a token decrypts successfully
exactly under the key that produced it, yielding the original plaintext,
and any other key makes `decrypt` raise `InvalidToken`.  The token is
represented as the pair of the key it was produced under and the
plaintext; the scheme's internal timestamp, nonce and tag are not
observable through the repository's uses of the library. -/
structure FernetToken where
  key : List Nat
  plaintext : List Nat
  deriving DecidableEq, Repr

/-- `Fernet(key).encrypt(plaintext)` in the model. -/
def fernetEncrypt (key plaintext : List Nat) : FernetToken :=
  ⟨key, plaintext⟩

/-- `Fernet(key).decrypt(token)` in the model: the plaintext when the
key matches, `InvalidToken` otherwise. -/
def fernetDecrypt (key : List Nat) (token : FernetToken) : Except PyError (List Nat) :=
  if token.key == key then .ok token.plaintext else .error .invalidToken

/-- The bytes of the known constant `b"CHECK_OK"`. -/
def CHECK_OK_BYTES : List Nat := "CHECK_OK".data.map Char.toNat

/-- Embedding of `security.encode_kcv`: encrypts `b"CHECK_OK"` under the
key with Fernet; the token is the key check value. -/
def encode_kcv (key : List Nat) : FernetToken :=
  fernetEncrypt key CHECK_OK_BYTES

/-- Embedding of `security.decode_kcv(kcv, key)`: runs
`check = Fernet(key).decrypt(kcv)` — any decryption failure propagates,
nothing catches it — and then returns the result of Python's
`check == "CHECK_OK"`, which compares the `bytes` value `check` with a
`str` literal. -/
def decode_kcv (kcv : FernetToken) (key : List Nat) : Except PyError Bool :=
  match fernetDecrypt key kcv with
  | .error e => .error e
  | .ok check => .ok (pyEq (.pyBytes check) (.pyStr "CHECK_OK"))

/-- A concrete stored entry named `github`, used as test data. -/
def ghRow : Row :=
  ⟨1, "github", .pyStr "alice", .pyStr "hunter2", some "https://github.com",
   some "work", 0, 0, .pyInt 1⟩

/-- A concrete stored entry named `bank`, used as test data. -/
def bankRow : Row :=
  ⟨2, "bank", .pyStr "bob", .pyStr "pw", some "https://bank.example",
   some "personal", 3, 3, .pyInt 1⟩

/-- A default row, used only as the fallback value of `List.getD`. -/
def dRow : Row :=
  ⟨0, "", .pyStr "", .pyStr "", none, none, 0, 0, .pyInt 1⟩

/-!  Helper lemmas. -/

theorem sha256Digest_length (st : Sha256State) : (sha256Digest st).length = 32 := by
  simp [sha256Digest, wordBE]

theorem sha256_length (m : List Nat) : (sha256 m).length = 32 := by
  unfold sha256
  exact sha256Digest_length _

theorem hmacSha256_length (key msg : List Nat) : (hmacSha256 key msg).length = 32 := by
  unfold hmacSha256
  exact sha256_length _

theorem xorBytes_length (a b : List Nat) :
    (xorBytes a b).length = min a.length b.length := by
  simp [xorBytes]

theorem pbkdf2Loop_length (p : List Nat) :
    ∀ (n : Nat) (u acc : List Nat), acc.length = 32 → (pbkdf2Loop p u acc n).length = 32
  | 0, _, _, h => h
  | n + 1, u, acc, h => by
      rw [pbkdf2Loop]
      exact pbkdf2Loop_length p n _ _
        (by rw [xorBytes_length, h, hmacSha256_length]; simp)

theorem pbkdf2Block_length (p s : List Nat) (c i : Nat) :
    (pbkdf2Block p s c i).length = 32 := by
  unfold pbkdf2Block
  exact pbkdf2Loop_length p (c - 1) _ _ (hmacSha256_length _ _)

theorem pbkdf2HmacSha256_length_32 (p s : List Nat) (c : Nat) :
    (pbkdf2HmacSha256 p s c 32).length = 32 := by
  have h1 : (32 + 31) / 32 = 1 := by norm_num
  have h2 : List.range 1 = [0] := rfl
  simp [pbkdf2HmacSha256, h1, h2, pbkdf2Block_length]

theorem likeMatch_percent (s : List Char) : likeMatch ['%'] s = true := by
  induction s with
  | nil => simp [likeMatch]
  | cons c s2 ih => simp [likeMatch, ih]

theorem likeMatch_append_percent (t : List Char) (ht : noWildcard t = true) :
    ∀ s, likeMatch (t ++ ['%']) s = startsWithChars (t.map lowerAscii) (s.map lowerAscii) := by
  induction t with
  | nil =>
    intro s
    simp [likeMatch_percent, startsWithChars]
  | cons a t ih =>
    intro s
    simp only [noWildcard, List.all_cons, Bool.and_eq_true, Bool.not_eq_eq_eq_not,
      Bool.not_true, beq_eq_false_iff_ne, ne_eq] at ht
    obtain ⟨⟨ha1, ha2⟩, ht'⟩ := ht
    cases s with
    | nil => simp [likeMatch, ha1, startsWithChars]
    | cons c s2 =>
      simp [likeMatch, ha1, ha2, startsWithChars, ih (by simpa [noWildcard] using ht') s2]

theorem likeMatch_sandwich (t : List Char) (ht : noWildcard t = true) :
    ∀ s, likeMatch ('%' :: (t ++ ['%'])) s = containsSub (t.map lowerAscii) (s.map lowerAscii) := by
  intro s
  induction s with
  | nil =>
    simp [likeMatch, containsSub, likeMatch_append_percent t ht []]
  | cons c s2 ih =>
    simp [likeMatch, containsSub, likeMatch_append_percent t ht (c :: s2), ih]

theorem filter_eq_nil_of_any_eq_false {p : Row → Bool} {l : List Row}
    (h : l.any p = false) : l.filter p = [] := by
  induction l with
  | nil => rfl
  | cons a l ih =>
    simp only [List.any_cons, Bool.or_eq_false_iff] at h
    simp [List.filter_cons, h.1, ih h.2]

theorem getD_map_of_lt {α β : Type} (f : α → β) (d : α) (d2 : β) :
    ∀ (l : List α) (i : Nat), i < l.length → (l.map f).getD i d2 = f (l.getD i d)
  | a :: l, 0, _ => by simp
  | a :: l, i + 1, h => by
      simp only [List.map_cons, List.getD_cons_succ]
      exact getD_map_of_lt f d d2 l i (by simpa using h)

/-!  Claim theorems. -/

/-- C9: `derive_key` is a pure deterministic function of the password and
the salt, computed by an iterative keyed-hash key derivation function
(PBKDF2 over HMAC-SHA256) configured with 1,200,000 ≥ 1,000,000
iterations and a 32-byte (256-bit) derived key, which the function
returns base64url-encoded. -/
theorem derive_key_deterministic_iterated_kdf (salt : List Nat) (password : String) :
    derive_key salt password = derive_key salt password ∧
    kdf_iterations = 1200000 ∧
    1000000 ≤ kdf_iterations ∧
    derive_key salt password =
      urlsafeB64encode (pbkdf2HmacSha256 (utf8Bytes password) salt kdf_iterations kdf_length) ∧
    (pbkdf2HmacSha256 (utf8Bytes password) salt kdf_iterations kdf_length).length = kdf_length ∧
    kdf_length * 8 = 256 := by
  refine ⟨rfl, rfl, by norm_num [kdf_iterations], rfl, ?_, rfl⟩
  exact pbkdf2HmacSha256_length_32 _ _ _

/-- C2 (code bug): for every key — in particular every key derived from
the master password and the stored salt — `decode_kcv` applied to the KCV
that `encode_kcv` produced under that same key returns `False`, not
`True`: decryption succeeds and recovers `b"CHECK_OK"`, but the code
compares those bytes against the `str` literal `"CHECK_OK"`, and in
Python 3 a `bytes` value never equals a `str` value. -/
theorem decode_kcv_of_matching_key_returns_false (key : List Nat) :
    decode_kcv (encode_kcv key) key = .ok false ∧
    ∀ (salt : List Nat) (password : String),
      decode_kcv (encode_kcv (derive_key salt password)) (derive_key salt password) = .ok false := by
  have h : ∀ k : List Nat, decode_kcv (encode_kcv k) k = .ok false := by
    intro k
    simp [decode_kcv, encode_kcv, fernetEncrypt, fernetDecrypt, pyEq]
  exact ⟨h key, fun salt password => h (derive_key salt password)⟩

/-- C3 (code bug): when decryption of the KCV fails — here, because the
token was produced under a different key — `decode_kcv` does not return
`False`: the `InvalidToken` error raised by `Fernet.decrypt` propagates
out of `decode_kcv`, which contains no handler for it. -/
theorem decode_kcv_decryption_failure_raises (k1 k2 : List Nat) (h : k1 ≠ k2) :
    decode_kcv (encode_kcv k1) k2 = .error .invalidToken := by
  simp [decode_kcv, encode_kcv, fernetEncrypt, fernetDecrypt, h]

/-- Witness for C3 at the concrete keys `[0]` and `[1]`. -/
theorem decode_kcv_decryption_failure_raises_witness :
    ([0] : List Nat) ≠ [1] ∧ decode_kcv (encode_kcv [0]) [1] = .error .invalidToken :=
  ⟨by decide, decode_kcv_decryption_failure_raises [0] [1] (by decide)⟩

/-- C7 (code bug): `db.list` fails identically on every store: its body
evaluates the unbound name `SQL_LIST`, so it raises `NameError` and never
returns any rows, let alone rows ordered by `service_name`. -/
theorem db_list_always_raises_nameerror (st : List Row) :
    db_list st = .error (.nameError "SQL_LIST") := rfl

/-- C1 (code bug): every entry the `add` command persists stores the
caller's username and password exactly as the plaintext strings that
were prompted for: the row appended to the store carries
`PyVal.pyStr username` and `PyVal.pyStr password` unchanged, since no
step of `cli.add` or `db.add_entry` encrypts anything. -/
theorem add_persists_plaintext_credentials (st : List Row)
    (service_name username password url note : String) (now : Nat)
    (hfree : validate_service_name st service_name = false) (confirm : Bool)
    (hc : confirm = true) :
    cli_add st service_name username password url note false confirm now =
      (st ++ [⟨freshId st, service_name, .pyStr username, .pyStr password,
               some url, some note, now, now, .pyInt 1⟩], .saved) ∧
    ∃ r : Row, (cli_add st service_name username password url note false confirm now).1
        = st ++ [r] ∧ r.username = .pyStr username ∧ r.password = .pyStr password := by
  subst hc
  have hany : st.any (fun r => r.service_name == service_name) = false := hfree
  constructor
  · simp [cli_add, validate_service_name, hany, add_entry]
  · refine ⟨⟨freshId st, service_name, .pyStr username, .pyStr password,
       some url, some note, now, now, .pyInt 1⟩, ?_, rfl, rfl⟩
    simp [cli_add, validate_service_name, hany, add_entry]

/-- Witness for C1: adding `github` with username `alice` and password
`hunter2` to the empty store persists both strings as given. -/
theorem add_persists_plaintext_credentials_witness :
    validate_service_name [] "github" = false ∧ true = true ∧
    (cli_add [] "github" "alice" "hunter2" "null" "null" false true 0 =
      ([] ++ [⟨freshId [], "github", .pyStr "alice", .pyStr "hunter2",
               some "null", some "null", 0, 0, .pyInt 1⟩], .saved) ∧
     ∃ r : Row, (cli_add [] "github" "alice" "hunter2" "null" "null" false true 0).1
        = [] ++ [r] ∧ r.username = .pyStr "alice" ∧ r.password = .pyStr "hunter2") :=
  ⟨rfl, rfl,
   add_persists_plaintext_credentials [] "github" "alice" "hunter2" "null" "null" 0 rfl true rfl⟩

/-- C10: every entry inserted through the `add` command is stored with
the `iv` column holding the Python integer literal `1` — the same
constant for every entry, whether or not the password was generated —
because `cli.add` always calls `db.add_entry(service_name, username,
password, url, note, 1)`. -/
theorem add_stores_constant_iv (st : List Row)
    (service_name username password url note : String) (generate : Bool) (now : Nat)
    (hfree : validate_service_name st service_name = false) :
    ∃ r : Row, (cli_add st service_name username password url note generate true now).1
        = st ++ [r] ∧ r.iv = .pyInt 1 := by
  have hany : st.any (fun r => r.service_name == service_name) = false := hfree
  refine ⟨⟨freshId st, service_name, .pyStr username,
     .pyStr (if generate then "generatedTestPassword123" else password),
     some url, some note, now, now, .pyInt 1⟩, ?_, rfl⟩
  cases generate <;> simp [cli_add, validate_service_name, hany, add_entry]

/-- Witness for C10 at a concrete add with the generate flag set. -/
theorem add_stores_constant_iv_witness :
    validate_service_name [] "github" = false ∧
    ∃ r : Row, (cli_add [] "github" "alice" "ignored" "null" "null" true true 0).1
        = [] ++ [r] ∧ r.iv = .pyInt 1 :=
  ⟨rfl, add_stores_constant_iv [] "github" "alice" "ignored" "null" "null" true 0 rfl⟩

/-- Counterexample for C4: a second insert of `github` fails with the
generic `Exception` that `db.add_entry` re-raises around the SQLite
uniqueness violation, not with a `DuplicateEntryError`. -/
theorem add_duplicate_not_duplicateentryerror :
    add_entry [ghRow] "github" (.pyStr "bob") (.pyStr "pw2") (some "u") (some "n") (.pyInt 1) 5
      ≠ .error .duplicateEntryError ∧
    add_entry [ghRow] "github" (.pyStr "bob") (.pyStr "pw2") (some "u") (some "n") (.pyInt 1) 5
      = .error (.exception ("Could not insert entry for github. Details: " ++
          "UNIQUE constraint failed: entries.service_name")) := by
  constructor
  · decide
  · decide

/-- C4 (amended): a second add of an already-stored `service_name` is
rejected — with a plain `Exception` wrapping the SQLite `UNIQUE`
violation, since the code defines no `DuplicateEntryError` — and the
rejection leaves the store unchanged: no row is written, and a
subsequent get of that `service_name` still returns the first entry's
values. -/
theorem add_duplicate_rejected_without_mutation (st : List Row) (name : String)
    (u1 p1 : PyVal) (url1 note1 : Option String) (iv1 : PyVal) (t1 : Nat)
    (u2 p2 : PyVal) (url2 note2 : Option String) (iv2 : PyVal) (t2 : Nat)
    (hfree : st.any (fun r => r.service_name == name) = false) :
    ∃ st2 : List Row,
      add_entry st name u1 p1 url1 note1 iv1 t1 = .ok st2 ∧
      add_entry st2 name u2 p2 url2 note2 iv2 t2 =
        .error (.exception ("Could not insert entry for " ++ name ++
          ". Details: UNIQUE constraint failed: entries.service_name")) ∧
      view_entry st2 name = .ok [⟨name, u1, p1, url1, note1, t1, t1⟩] := by
  refine ⟨st ++ [⟨freshId st, name, u1, p1, url1, note1, t1, t1, iv1⟩], ?_, ?_, ?_⟩
  · simp [add_entry, hfree]
  · simp [add_entry, List.any_append]
  · simp [view_entry, List.filter_append, filter_eq_nil_of_any_eq_false hfree, viewOf]

/-- Witness for C4 on the empty store with concrete field values. -/
theorem add_duplicate_rejected_without_mutation_witness :
    ([] : List Row).any (fun r => r.service_name == "github") = false ∧
    ∃ st2 : List Row,
      add_entry [] "github" (.pyStr "alice") (.pyStr "hunter2") (some "u") (some "n") (.pyInt 1) 0
        = .ok st2 ∧
      add_entry st2 "github" (.pyStr "bob") (.pyStr "pw2") (some "u2") (some "n2") (.pyInt 1) 5 =
        .error (.exception ("Could not insert entry for github" ++
          ". Details: UNIQUE constraint failed: entries.service_name")) ∧
      view_entry st2 "github" =
        .ok [⟨"github", .pyStr "alice", .pyStr "hunter2", some "u", some "n", 0, 0⟩] :=
  ⟨rfl, add_duplicate_rejected_without_mutation [] "github"
    (.pyStr "alice") (.pyStr "hunter2") (some "u") (some "n") (.pyInt 1) 0
    (.pyStr "bob") (.pyStr "pw2") (some "u2") (some "n2") (.pyInt 1) 5 rfl⟩

/-- Counterexample for C5: after deleting `github`, getting `github`
makes `db.view_entry` print a message and call `sys.exit(0)`; it does
not fail with a `NotFoundError`. -/
theorem delete_then_get_exits_not_notfounderror :
    view_entry (delete_entry [ghRow] "github") "github" = .error (.sysExit 0) ∧
    view_entry (delete_entry [ghRow] "github") "github" ≠ .error .notFoundError := by
  constructor
  · decide
  · decide

/-- C5 (amended): after `delete(service_name)`, a get of that
`service_name` finds no row, and in general a get of a `service_name`
with no matching row finds none; in both cases `db.view_entry` reports
"No entry was found" and terminates the process via `sys.exit(0)` — the
code defines no `NotFoundError`. -/
theorem get_after_delete_exits_process (st : List Row) (name : String) :
    view_entry (delete_entry st name) name = .error (.sysExit 0) ∧
    (st.filter (fun r => r.service_name == name) = [] →
      view_entry st name = .error (.sysExit 0)) := by
  constructor
  · have h : ∀ l : List Row,
        (l.filter (fun r => r.service_name != name)).filter
          (fun r => r.service_name == name) = [] := by
      intro l
      induction l with
      | nil => rfl
      | cons a l ih =>
        cases hc : a.service_name == name <;>
          simp [List.filter_cons, hc, bne, ih]
    simp [view_entry, delete_entry, h st]
  · intro h
    simp [view_entry, h]

/-- Witness for C5: deletion of `github` then get, and get of a name
that was never stored, both end in `sys.exit(0)`. -/
theorem get_after_delete_exits_process_witness :
    view_entry (delete_entry [ghRow] "github") "github" = .error (.sysExit 0) ∧
    view_entry [bankRow] "github" = .error (.sysExit 0) :=
  ⟨(get_after_delete_exits_process [ghRow] "github").1,
   (get_after_delete_exits_process [bankRow] "github").2 (by decide)⟩

/-- C6: `update_entry` is a frame-preserving partial update: at every
position of the store, the `id`, `service_name`, `username`, `url`,
`note`, `created_at` and `iv` columns are byte-identical before and
after; a row whose `service_name` matches gets exactly the new password
and the new `updated_at`, and a row whose `service_name` differs is
entirely unchanged. -/
theorem update_password_frame (st : List Row) (name : String) (pw : PyVal) (now : Nat)
    (i : Nat) (hi : i < st.length) :
    (update_entry st name pw now).length = st.length ∧
    ((update_entry st name pw now).getD i dRow).id = (st.getD i dRow).id ∧
    ((update_entry st name pw now).getD i dRow).service_name = (st.getD i dRow).service_name ∧
    ((update_entry st name pw now).getD i dRow).username = (st.getD i dRow).username ∧
    ((update_entry st name pw now).getD i dRow).url = (st.getD i dRow).url ∧
    ((update_entry st name pw now).getD i dRow).note = (st.getD i dRow).note ∧
    ((update_entry st name pw now).getD i dRow).created_at = (st.getD i dRow).created_at ∧
    ((update_entry st name pw now).getD i dRow).iv = (st.getD i dRow).iv ∧
    ((st.getD i dRow).service_name = name →
      ((update_entry st name pw now).getD i dRow).password = pw ∧
      ((update_entry st name pw now).getD i dRow).updated_at = now) ∧
    ((st.getD i dRow).service_name ≠ name →
      (update_entry st name pw now).getD i dRow = st.getD i dRow) := by
  have hup : (update_entry st name pw now).getD i dRow =
      (fun r : Row =>
        if r.service_name == name then { r with password := pw, updated_at := now } else r)
        (st.getD i dRow) :=
    getD_map_of_lt _ dRow dRow st i hi
  have hlen : (update_entry st name pw now).length = st.length := by
    simp [update_entry]
  rw [hup]
  generalize st.getD i dRow = r
  simp only [beq_iff_eq]
  split_ifs with hc
  · exact ⟨hlen, rfl, rfl, rfl, rfl, rfl, rfl, rfl, fun _ => ⟨rfl, rfl⟩,
      fun hn => absurd hc hn⟩
  · exact ⟨hlen, rfl, rfl, rfl, rfl, rfl, rfl, rfl, fun hy => absurd hy hc,
      fun _ => rfl⟩

/-- Witness for C6: updating `github`'s password in a two-entry store
changes only that row's password and `updated_at`; the `bank` row is
untouched. -/
theorem update_password_frame_witness :
    0 < ([ghRow, bankRow] : List Row).length ∧
    1 < ([ghRow, bankRow] : List Row).length ∧
    ((update_entry [ghRow, bankRow] "github" (.pyStr "npw") 9).getD 0 dRow).password
      = .pyStr "npw" ∧
    ((update_entry [ghRow, bankRow] "github" (.pyStr "npw") 9).getD 0 dRow).username
      = ghRow.username ∧
    ((update_entry [ghRow, bankRow] "github" (.pyStr "npw") 9).getD 0 dRow).created_at
      = ghRow.created_at ∧
    (update_entry [ghRow, bankRow] "github" (.pyStr "npw") 9).getD 1 dRow = bankRow := by
  have h0 := update_password_frame [ghRow, bankRow] "github" (.pyStr "npw") 9 0 (by decide)
  have h1 := update_password_frame [ghRow, bankRow] "github" (.pyStr "npw") 9 1 (by decide)
  refine ⟨by decide, by decide, ?_, ?_, ?_, ?_⟩
  · exact (h0.2.2.2.2.2.2.2.2.1 (by decide)).1
  · exact h0.2.2.2.1
  · exact h0.2.2.2.2.2.2.1
  · exact h1.2.2.2.2.2.2.2.2.2 (by decide)

/-- Counterexample for C8: the search term `BANK` returns the entry
named `bank` (SQLite's `LIKE` folds ASCII case), although `bank` does
not contain `BANK` as a substring. -/
theorem search_matches_without_substring_containment :
    db_search [bankRow] "BANK" =
      .ok [⟨"bank", some "https://bank.example", some "personal", 3, 3⟩] ∧
    containsSub "BANK".data "bank".data = false := by
  constructor
  · have hpat : ("%" ++ "BANK" ++ "%").data = '%' :: ("BANK".data ++ ['%']) := by
      simp [String.data_append]
    simp [db_search, bankRow, summaryOf, hpat, likeMatch, lowerAscii]
  · decide

/-- C8 (amended): `db.search` returns exactly the entries whose
`service_name` matches the SQLite `LIKE` pattern `%term%`; for a term
free of `%` and `_` wildcards this means the ASCII-case-folded term
occurs as a substring of the ASCII-case-folded `service_name` (not
exact, case-sensitive substring containment).  The returned rows carry
only the five non-sensitive columns — `summaryOf` omits `username` and
`password` — and when nothing matches the function exits the process
with status 0 instead of returning an empty list. -/
theorem search_like_semantics (st : List Row) (term : String)
    (hw : noWildcard term.data = true) :
    (∀ rows, db_search st term = .ok rows →
      rows = (st.filter (fun r =>
        containsSub (term.data.map lowerAscii) (r.service_name.data.map lowerAscii))).map summaryOf
      ∧ rows ≠ []) ∧
    (db_search st term = .error (.sysExit 0) ↔
      st.filter (fun r =>
        containsSub (term.data.map lowerAscii) (r.service_name.data.map lowerAscii)) = []) := by
  have hpat : ("%" ++ term ++ "%").data = '%' :: (term.data ++ ['%']) := by
    simp [String.data_append]
  have hpred : (fun r : Row => likeMatch ("%" ++ term ++ "%").data r.service_name.data)
      = fun r : Row =>
        containsSub (term.data.map lowerAscii) (r.service_name.data.map lowerAscii) := by
    funext r
    rw [hpat]
    exact likeMatch_sandwich term.data hw _
  have hdb : db_search st term =
      if ((st.filter (fun r =>
            containsSub (term.data.map lowerAscii) (r.service_name.data.map lowerAscii))).map
          summaryOf).isEmpty
      then .error (.sysExit 0)
      else .ok ((st.filter (fun r =>
            containsSub (term.data.map lowerAscii) (r.service_name.data.map lowerAscii))).map
          summaryOf) := by
    simp only [db_search]
    rw [hpred]
  rw [hdb]
  by_cases he : ((st.filter (fun r =>
      containsSub (term.data.map lowerAscii) (r.service_name.data.map lowerAscii))).map
        summaryOf).isEmpty
  · constructor
    · intro rows hok
      rw [if_pos he] at hok
      exact absurd hok (by simp)
    · rw [if_pos he]
      simp only [List.isEmpty_iff, List.map_eq_nil_iff] at he
      simp [he]
  · constructor
    · intro rows hok
      rw [if_neg he] at hok
      have hrows : rows = (st.filter (fun r =>
          containsSub (term.data.map lowerAscii) (r.service_name.data.map lowerAscii))).map
            summaryOf := by
        cases hok
        rfl
      subst hrows
      refine ⟨rfl, ?_⟩
      intro hnil
      rw [hnil] at he
      exact he rfl
    · rw [if_neg he]
      constructor
      · intro h
        exact absurd h (by simp)
      · intro h
        rw [h] at he
        exact absurd rfl he

/-- Witness for C8: searching `git` in a store holding `github` and
`bank` is characterised by case-folded substring containment. -/
theorem search_like_semantics_witness :
    noWildcard "git".data = true ∧
    ((∀ rows, db_search [ghRow, bankRow] "git" = .ok rows →
      rows = (([ghRow, bankRow] : List Row).filter (fun r =>
        containsSub ("git".data.map lowerAscii) (r.service_name.data.map lowerAscii))).map
          summaryOf
      ∧ rows ≠ []) ∧
    (db_search [ghRow, bankRow] "git" = .error (.sysExit 0) ↔
      ([ghRow, bankRow] : List Row).filter (fun r =>
        containsSub ("git".data.map lowerAscii) (r.service_name.data.map lowerAscii)) = [])) :=
  ⟨by decide, search_like_semantics [ghRow, bankRow] "git" (by decide)⟩
